import Mathlib

/-!
Verification development for the iPod-Nano-Revival pipeline
(YouTube → transcode → iPod transfer).

Shallow embedding of the Python modules:
  * `src/youtube_downloader.py` — `TrackInfo`, `_parse_artist_title`,
    `extract_playlist_info` (ordinal assignment), `download_audio`,
    `_download_progress_hook` / `process_url` (progress emissions);
  * `src/audio_converter.py` — `_sanitize_filename`,
    `convert_to_ipod_format` (output-path derivation and the
    exists-and-not-overwrite cache check);
  * `src/ipod_device.py` — `detect_devices` (strategy ordering on macOS),
    `get_device_info` (capacity query), `transfer_file` (file placement);
  * `src/main.py` — `WorkerThread._run_transfer` (capacity precondition).

Modelling conventions:
  * filesystem paths are segment lists (`Path := List String`);
    `os.path.join` is list append, `Path(p).parts` is the list itself,
    `os.path.basename` is the last segment;
  * the filesystem is an association list from paths to file data
    (byte size and modification time); directories that matter (mount
    points) are a separate list of existing paths;
  * Python `None` becomes `Option.none`; Python float percentage
    arithmetic (`int((a/b)*k)`) is modelled exactly as natural-number
    floor division, which agrees with the float computation on all the
    ranges the claims are about;
  * external effects (yt-dlp events, ffmpeg success, shutil.copy2
    outcome) are parameters describing the one interaction the code has
    with them.
-/

/-- One playable item; mirrors the `TrackInfo` dataclass of
`src/youtube_downloader.py` (lines 21-34).  `download_path` defaults to
`None` in the dataclass, hence `none` here. -/
structure TrackInfo where
  video_id : String
  title : String
  artist : String
  album : String
  thumbnail_url : String
  duration : Nat
  track_number : Option Nat := none
  playlist_id : Option String := none
  playlist_title : Option String := none
  playlist_index : Option Nat := none
  download_path : Option (List String) := none
deriving DecidableEq, Repr

/-- Size and modification time of one on-disk file. -/
structure FileData where
  size : Nat
  mtime : Nat
deriving DecidableEq, Repr

/-- The visible filesystem: an association list path → file data. -/
def FS : Type := List (List String × FileData)
deriving DecidableEq, Repr

/-- Look a path up in the filesystem (`os.path.exists` /
`os.path.getsize` combined). -/
def FS.lookup (fs : FS) (p : List String) : Option FileData :=
  match fs with
  | [] => none
  | (q, d) :: rest => if q = p then some d else FS.lookup rest p

/-- Python `os.path.exists` for files. -/
def FS.existsPath (fs : FS) (p : List String) : Bool :=
  (fs.lookup p).isSome

/-- Python `os.path.getsize`, defaulting to 0 for a missing file (the callers
below only ever read sizes of files they checked exist). -/
def FS.sizeOf (fs : FS) (p : List String) : Nat :=
  ((fs.lookup p).map FileData.size).getD 0

/-- Overwrite-or-add a file (the effect of a completed write to `p`). -/
def FS.store (fs : FS) (p : List String) (d : FileData) : FS :=
  match fs with
  | [] => [(p, d)]
  | (q, e) :: rest => if q = p then (p, d) :: rest else (q, e) :: FS.store rest p d

/-- Python `str.strip()` whitespace set (ASCII part; titles and
filenames in all claims are ASCII). -/
def isPySpace (c : Char) : Bool :=
  c = ' ' ∨ c = '\t' ∨ c = '\n' ∨ c = '\r' ∨ c = '\x0b' ∨ c = '\x0c'

/-- Python `str.strip()` on a character list. -/
def pyStrip (s : List Char) : List Char :=
  ((s.dropWhile isPySpace).reverse.dropWhile isPySpace).reverse

/-- The characters `<>:"/\|?*` replaced by `_sanitize_filename`
(`src/audio_converter.py` line 183). -/
def invalidChars : List Char :=
  ['<', '>', ':', '"', '/', '\\', '|', '?', '*']

/-- One replacement step of the sanitizer.  The Python code runs nine
sequential `str.replace` passes; since every replacement writes `'_'`,
which is in no later pass's search set, the nine passes equal one
character map. -/
def replaceInvalid (c : Char) : Char :=
  if c ∈ invalidChars then '_' else c

/-- The 3-character ellipsis marker appended on truncation. -/
def ellipsis : List Char := ['.', '.', '.']

/-- Embeds `AudioConverter._sanitize_filename` (`src/audio_converter.py`
lines 172-191): replace invalid characters, truncate to 97 + "..."
when longer than 100, then `strip()` the result. -/
def sanitize_filename (s : List Char) : List Char :=
  let f := s.map replaceInvalid
  let f := if 100 < f.length then f.take 97 ++ ellipsis else f
  pyStrip f

/-- Split a character list at the first occurrence of `c`, returning
the pieces before and after it. -/
def splitFirst (c : Char) : List Char → Option (List Char × List Char)
  | [] => none
  | x :: xs =>
    if x = c then some ([], xs)
    else (splitFirst c xs).map (fun p => (x :: p.1, p.2))

/-- Embeds `YouTubeDownloader._parse_artist_title` (`src/youtube_downloader.py`
lines 64-88).  The code tries the regexes `^(.*?)\s*-\s*(.*?)$`,
`^(.*?)\s*:\s*(.*?)$`, `^(.*?)\s*\|\s*(.*?)$` in order with `re.match`.
On newline-free titles a pattern matches exactly when its separator
character occurs, the lazy first group makes the split happen at the
first occurrence, and the surrounding `\s*` plus the explicit
`.strip()` calls amount to stripping both pieces.  (`.` does not match
a newline; titles are modelled as newline-free, which covers every
string any claim mentions.) -/
def parse_artist_title (s : List Char) : List Char × List Char :=
  match splitFirst '-' s with
  | some (a, b) => (pyStrip a, pyStrip b)
  | none =>
    match splitFirst ':' s with
    | some (a, b) => (pyStrip a, pyStrip b)
    | none =>
      match splitFirst '|' s with
      | some (a, b) => (pyStrip a, pyStrip b)
      | none => ([], pyStrip s)

/-! ## Device abstraction (`src/ipod_device.py`) -/

/-- One discovered device record, mirroring the dictionaries appended
by `IPodDevice.detect_devices` (`id`, `name`, `model`, `mount_point`). -/
structure Device where
  id : String
  name : String
  model : String
  mount_point : Option (List String)
deriving DecidableEq, Repr

/-- What the macOS probes of `IPodDevice.detect_devices`
(`src/ipod_device.py` lines 79-174) observe on a given host.  Each
field is the list of iPod records the corresponding external probe
yields there:
  * `vendorDevices` — devices found via `idevice_id -l` /
    `ideviceinfo` (lines 81-116), empty when the tool reports none;
  * `diskutilDevices` — devices found by scanning `diskutil list` /
    `diskutil info` output for an "iPod" line with an existing mount
    point (lines 122-160);
  * `volumesDevices` — `/Volumes` entries whose name contains "iPod"
    (lines 163-174).
`ideviceAvailable` / `diskutilAvailable` record whether the binary is
installed: a missing `idevice_id` raises `FileNotFoundError`, caught at
line 117; a missing `diskutil` raises out of the strategy block into
the outer `except Exception` (line 260), which also skips the
`/Volumes` scan. -/
structure DarwinHost where
  ideviceAvailable : Bool
  vendorDevices : List Device
  diskutilAvailable : Bool
  diskutilDevices : List Device
  volumesDevices : List Device
deriving DecidableEq, Repr

/-- The manual-mount-point record appended at
`src/ipod_device.py` lines 263-270. -/
def manualDevice (mp : List String) (name : String) : Device :=
  { id := ("manual"), name := name, model := ("Unknown"), mount_point := some mp }

/-- Embeds `IPodDevice.detect_devices` on macOS (`src/ipod_device.py`
lines 66-272, `system == "Darwin"` branch plus the shared manual
fallback).  `manual` is `self.mount_point` with its basename `mname`,
`manualExists` is `os.path.exists(self.mount_point)`.  Strategy
results are appended to one growing `devices` list; only the
`/Volumes` scan and the manual fallback are guarded by
`if not devices`. -/
def detect_devices (h : DarwinHost) (manual : Option (List String))
    (mname : String) (manualExists : Bool) : List Device :=
  let d1 := if h.ideviceAvailable then h.vendorDevices else []
  let d3 :=
    if h.diskutilAvailable then
      let d2 := d1 ++ h.diskutilDevices
      if d2.isEmpty then d2 ++ h.volumesDevices else d2
    else
      d1
  match manual with
  | some mp => if d3.isEmpty ∧ manualExists then d3 ++ [manualDevice mp mname] else d3
  | none => d3

/-- The capacity dictionary built by `IPodDevice.get_device_info`
(`src/ipod_device.py` lines 388-433); `none` models the empty
dictionary returned when no mount point is recorded or it does not
exist.  (`has_music_dir` / `music_file_count` are bookkeeping fields no
claim reads and are omitted.) -/
structure DeviceInfo where
  mount_point : List String
  total_space : Nat
  free_space : Nat
  used_space : Nat
deriving DecidableEq, Repr

/-- Embeds `IPodDevice.get_device_info`.  Here `dirs` is the set of directories
that exist on the host (`os.path.exists` for the mount point);
`usage` is what `shutil.disk_usage` reports (total, free, used);
`usageFails` models `shutil.disk_usage` raising, in which case the
`except` branch returns the dictionary with its zero placeholders
(lines 399-404, 431-433).  A `None` (or empty) `mount_point` yields the
empty dictionary. -/
def get_device_info (mount : Option (List String)) (dirs : List (List String))
    (usage : Nat × Nat × Nat) (usageFails : Bool) : Option DeviceInfo :=
  match mount with
  | none => none
  | some mp =>
    if mp ∈ dirs then
      if usageFails then
        some { mount_point := mp, total_space := 0, free_space := 0, used_space := 0 }
      else
        some { mount_point := mp, total_space := usage.1,
               free_space := usage.2.1, used_space := usage.2.2 }
    else none

/-- Models `device_info.get("free_space", 0)` as used by the transfer callers
(`src/main.py` line 174, `src/cli.py` line 237). -/
def reportedFreeSpace (info : Option DeviceInfo) : Nat :=
  (info.map DeviceInfo.free_space).getD 0

/-- Outcome of one `shutil.copy2` invocation.  `ok` completes the
copy; `fail written` models an I/O error after `written` bytes reached
the destination — `shutil.copy2` opens the destination for writing
directly, so an interrupted copy leaves those bytes on disk under the
destination name. -/
inductive CopyEvent where
  | ok
  | fail (written : Nat)
deriving DecidableEq, Repr

/-- Models `shutil.copy2 src dst`: on success the destination carries the
source's bytes and, via `copystat`, its modification time; on failure
the partial prefix is left at `dst` (its mtime is the wall clock
`now`) and the exception surfaces as `false`. -/
def copy2 (fs : FS) (src dst : List String) (ev : CopyEvent) (now : Nat) : FS × Bool :=
  match fs.lookup src with
  | none => (fs, false)
  | some fd =>
    match ev with
    | .ok => (fs.store dst fd, true)
    | .fail written => (fs.store dst { size := min written fd.size, mtime := now }, false)

/-- Destination directory chosen by `IPodDevice.transfer_file`
(`src/ipod_device.py` lines 455-467): an explicit relative hint is
joined to the mount point; otherwise `Music/<artist>/<album>` using the
last two directory segments of the source path (`Path(source).parts`
has the filename last, so `parts[-3]`/`parts[-2]` are those), falling
back to plain `Music` for short paths. -/
def transferDestDir (mp src : List String) (relative : Option (List String)) : List String :=
  match relative with
  | some rp => mp ++ rp
  | none =>
    match src.reverse with
    | _fname :: album :: artist :: _ => mp ++ [("Music"), artist, album]
    | _ => mp ++ [("Music")]

/-- Python `os.path.basename` of a segment path. -/
def basenameOf (p : List String) : String :=
  (p.reverse.headD (""))

/-- Embeds `IPodDevice.transfer_file` (`src/ipod_device.py` lines 435-482):
check the mount point, check the source exists, derive the destination
directory, and `shutil.copy2` the file straight to its final name
(`dest_dir/basename`).  `dirs` is the set of existing directories
(`os.makedirs` on the destination directory always succeeds and is not
tracked).  Returns the filesystem after the call and the boolean the
method returns. -/
def transfer_file (mount : Option (List String)) (dirs : List (List String))
    (fs : FS) (src : List String) (relative : Option (List String))
    (ev : CopyEvent) (now : Nat) : FS × Bool :=
  match mount with
  | none => (fs, false)
  | some mp =>
    if mp ∈ dirs then
      if fs.existsPath src then
        let dest := transferDestDir mp src relative ++ [basenameOf src]
        copy2 fs src dest ev now
      else (fs, false)
    else (fs, false)

/-! ## Pipeline orchestrator transfer step (`src/main.py`) -/

/-- How `WorkerThread._run_transfer` ends (`src/main.py`
lines 154-212), keyed by the `finished_signal` it emits:
`noTracks` — "No tracks to transfer"; `noMount` — "No iPod device
mounted"; `insufficientSpace` — "Not enough space on iPod …";
`completed` — the success signal after the copy loop. -/
inductive TransferOutcome where
  | noTracks
  | noMount
  | insufficientSpace
  | completed
deriving DecidableEq, Repr

/-- Result of one transfer step: its outcome, the source paths passed
to `IPodDevice.transfer_file` (in order), and the pairs reported as
transferred. -/
structure TransferRun where
  outcome : TransferOutcome
  attempted : List (List String)
  transferred : List (TrackInfo × List String)
deriving DecidableEq, Repr

/-- The `total_size` accumulation of `src/main.py` lines 177-180: sum the
sizes of the batch's source paths that exist on disk. -/
def totalSize (fs : FS) (tracks : List (TrackInfo × List String)) : Nat :=
  (tracks.map (fun tp => if fs.existsPath tp.2 then fs.sizeOf tp.2 else 0)).sum

/-- Embeds `WorkerThread._run_transfer` (`src/main.py` lines 154-212) for an
uncancelled run (`is_running` stays true, so the loop visits every
pair).  `mount` is the `mount_point` kwarg (`None`/empty falsy value as
`none`), `dirs`/`usage`/`usageFails` feed the `get_device_info`
capacity query, `fs` is the source-side filesystem, and
`place p = true` says the `transfer_file` call for source `p` returned
`True`. -/
def run_transfer (tracks : List (TrackInfo × List String))
    (mount : Option (List String)) (dirs : List (List String))
    (usage : Nat × Nat × Nat) (usageFails : Bool) (fs : FS)
    (place : List String → Bool) : TransferRun :=
  if tracks.isEmpty then
    { outcome := .noTracks, attempted := [], transferred := [] }
  else
    match mount with
    | none => { outcome := .noMount, attempted := [], transferred := [] }
    | some mp =>
      let free := reportedFreeSpace (get_device_info (some mp) dirs usage usageFails)
      let total := totalSize fs tracks
      if free < total then
        { outcome := .insufficientSpace, attempted := [], transferred := [] }
      else
        let existing := tracks.filter (fun tp => fs.existsPath tp.2)
        { outcome := .completed,
          attempted := existing.map (fun tp => tp.2),
          transferred := existing.filter (fun tp => place tp.2) }

/-! ## Acquisition stage (`src/youtube_downloader.py`) -/

/-- The `TrackInfo` built by `YouTubeDownloader.extract_video_info`
(`src/youtube_downloader.py` lines 90-137) from the metadata the fetch
engine returns for one video: artist/title from
`_parse_artist_title`, album defaulted to the artist, every optional
field (including `download_path`) left at its dataclass default. -/
def extract_video_info (videoId videoTitle thumbnailUrl : String)
    (duration : Nat) : TrackInfo :=
  let at' := parse_artist_title videoTitle.data
  { video_id := videoId, title := String.mk at'.2, artist := String.mk at'.1,
    album := String.mk at'.1, thumbnail_url := thumbnailUrl, duration := duration }

/-- The per-entry loop of `YouTubeDownloader.extract_playlist_info`
(`src/youtube_downloader.py` lines 179-210).  An entry is `some t`
when the playlist element survives every check (`entry` truthy,
`_type == 'url'`, `extract_video_info` returns a track, no exception)
and `none` when it is skipped.  `idx` is the 1-based `enumerate`
index assigned to `playlist_index`; `tn` is the running
`track_number`, incremented only after a surviving entry. -/
def resolveEntries (pid ptitle : String) :
    Nat → Nat → List (Option TrackInfo) → List TrackInfo
  | _, _, [] => []
  | idx, tn, none :: rest => resolveEntries pid ptitle (idx + 1) tn rest
  | idx, tn, some t :: rest =>
    { t with playlist_id := some pid, playlist_title := some ptitle,
             playlist_index := some idx, track_number := some tn,
             album := ptitle } :: resolveEntries pid ptitle (idx + 1) (tn + 1) rest

/-- Embeds `YouTubeDownloader.extract_playlist_info` (lines 139-214) after the
playlist metadata has been fetched: both counters start at 1
(`enumerate(..., 1)` and `track_number = 1`). -/
def extract_playlist_info (pid ptitle : String)
    (entries : List (Option TrackInfo)) : List TrackInfo :=
  resolveEntries pid ptitle 1 1 entries

/-- Models `re.sub(r'[^\w\-_\. ]', '_', title)` of
`src/youtube_downloader.py` line 233 (ASCII reading of `\w`). -/
def safeTitleChar (c : Char) : Char :=
  if c.isAlphanum ∨ c ∈ ['-', '_', '.', ' '] then c else '_'

/-- Render a number as Python `f"{n:02d}"`. -/
def pad2 (n : Nat) : String :=
  if n < 10 then ("0") ++ toString n else toString n

/-- Python truthiness of an `Optional[int]` (both `None` and `0` are
falsy). -/
def natTruthy (o : Option Nat) : Bool :=
  (o.getD 0) ≠ 0

/-- Python truthiness of an `Optional[str]` (both `None` and the empty
string are falsy). -/
def strTruthy (o : Option String) : Bool :=
  (o.getD (""))  ≠ ""

/-- Output template of `YouTubeDownloader.download_audio`
(`src/youtube_downloader.py` lines 232-239): sanitized title,
optionally prefixed with the zero-padded track number, plus the format
extension, inside the temp directory. -/
def downloadOutputPath (tempDir : String) (t : TrackInfo) (fmt : String) : List String :=
  let safeTitle := String.mk (t.title.data.map safeTitleChar)
  let filename :=
    match t.track_number with
    | some n => if n ≠ 0 then pad2 n ++ (". ") ++ safeTitle ++ (".") ++ fmt
                else safeTitle ++ (".") ++ fmt
    | none => safeTitle ++ (".") ++ fmt
  [tempDir, filename]

/-- The path `download_audio` checks for after the fetch
(line 261): the template path with the format extension appended a
second time (`f"{output_path}.{format}"`), the artifact of yt-dlp's
audio postprocessor renaming its output. -/
def downloadExpectedPath (tempDir : String) (t : TrackInfo) (fmt : String) : List String :=
  match downloadOutputPath tempDir t fmt with
  | [d, f] => [d, f ++ (".") ++ fmt]
  | p => p

/-- Result of one `download_audio` call: the (possibly updated) track,
the returned value, and the filesystem after the call. -/
structure DownloadResult where
  track : TrackInfo
  result : Option (List String)
  fs : FS
deriving DecidableEq, Repr

/-- Embeds `YouTubeDownloader.download_audio` (`src/youtube_downloader.py`
lines 216-271).  `produced` tells whether the external fetch engine
left the expected file on disk (`ignoreerrors: True` swallows its
failures; `created` is that file's data).  The method sets
`track_info.download_path` only after `os.path.exists` succeeds on the
expected path; otherwise it returns `None` with the track untouched.
An exception from the engine (the `except` at line 269) is
indistinguishable from `produced = false` for the fields modelled. -/
def downloadFinish (ep : List String) (t : TrackInfo) (fs' : FS) : DownloadResult :=
  if fs'.existsPath ep then
    { track := { t with download_path := some ep }, result := some ep, fs := fs' }
  else
    { track := t, result := none, fs := fs' }

def download_track (tempDir : String) (t : TrackInfo) (fmt : String)
    (fs : FS) (produced : Bool) (created : FileData) : DownloadResult :=
  downloadFinish (downloadExpectedPath tempDir t fmt) t
    (if produced then fs.store (downloadExpectedPath tempDir t fmt) created else fs)

/-! ## Progress emissions (`src/youtube_downloader.py`) -/

/-- One yt-dlp progress-hook invocation, as
`YouTubeDownloader._download_progress_hook` (lines 273-340)
distinguishes them: a `downloading` status with a positive
`total_bytes`, a `downloading` status without one (`ticks` is
`int(time.time() * 10)` at that instant), a `finished` status, or an
`error` status.  (Calls arriving with `elapsed_time ≤ 0` emit nothing
and are not events.) -/
inductive DlEvent where
  | known (downloaded total : Nat)
  | unknown (downloaded ticks : Nat)
  | finished
  | error
deriving DecidableEq, Repr

/-- The integer percentage one hook invocation passes to the progress
callback.  For a known total `t > 0` the code computes
`int(10 + (d/t*100) * 0.85)`, which over the rationals is
`⌊10 + 85*d/t⌋ = 10 + 85*d/t` in floor division (float rounding cannot
move the value outside the integer ranges any claim is about); for an
unknown total it pulses with `10 + (ticks % 80)`; `finished` and
`error` both emit 95. -/
def hookPercent : DlEvent → Nat
  | .known d t => 10 + 85 * d / t
  | .unknown _ ticks => 10 + ticks % 80
  | .finished => 95
  | .error => 95

/-- Percentages emitted while `extract_playlist_info` enumerates a
playlist of `n` entries (lines 182-191): a leading 0, then
`int((idx / n) * 10)` for `idx = 1 .. n` (again exact floor
division). -/
def analysisTrace (n : Nat) : List Nat :=
  0 :: (List.range n).map (fun i => 10 * (i + 1) / n)

/-- Percentages emitted by one full `YouTubeDownloader.process_url`
playlist run that reaches the final update (lines 342-402): the
playlist-analysis prefix over the `n` raw entries, then per resolved
track the fixed "Preparing to download" 10 followed by that track's
hook emissions, then the final 100.  `perTrack` holds each track's
download events in order. -/
def processUrlTrace (n : Nat) (perTrack : List (List DlEvent)) : List Nat :=
  analysisTrace n
    ++ (perTrack.map (fun evs => 10 :: evs.map hookPercent)).flatten
    ++ [100]

/-- A list is monotonically non-decreasing. -/
def isNondecreasing : List Nat → Bool
  | [] => true
  | [_] => true
  | a :: b :: rest => a ≤ b ∧ isNondecreasing (b :: rest)

/-- A hook event is well formed when a reported known total is positive
(the code only takes that branch for `total_bytes > 0`) and the
reported downloaded bytes do not exceed it. -/
def wfEvent : DlEvent → Prop
  | .known d t => d ≤ t ∧ 0 < t
  | _ => True

instance : DecidablePred wfEvent := by
  intro e
  cases e <;> simp only [wfEvent] <;> infer_instance

/-! ## Transcode stage (`src/audio_converter.py`) -/

/-- Output path chosen by `AudioConverter.convert_to_ipod_format`
(`src/audio_converter.py` lines 63-83).  With a truthy
`playlist_title`: `outputDir/artist/playlist/NN - title.fmt` (the
track-number prefix only for a truthy `track_number`); otherwise
`outputDir/artist/(album or artist)/title.fmt`.  Every component goes
through `_sanitize_filename`. -/
def convertOutputPath (outputDir : String) (t : TrackInfo) (fmt : String) : List String :=
  let san := fun (s : String) => String.mk (sanitize_filename s.data)
  if strTruthy t.playlist_title then
    let base := [outputDir, san t.artist, san (t.playlist_title.getD (""))]
    if natTruthy t.track_number then
      base ++ [pad2 (t.track_number.getD 0) ++ (" - ") ++ san t.title ++ (".") ++ fmt]
    else
      base ++ [san t.title ++ (".") ++ fmt]
  else
    [outputDir, san t.artist,
     san (if t.album = ("") then t.artist else t.album),
     san t.title ++ (".") ++ fmt]

/-- Result of one `convert_to_ipod_format` call: the returned path
(`none` models the `ffmpeg.Error` propagating out of the method, which
never returns `None` itself), the set of output files existing
afterwards, and whether the external transcoder was invoked. -/
structure ConvertResult where
  result : Option (List String)
  outFiles : List (List String)
  transcoderInvoked : Bool
deriving DecidableEq, Repr

/-- Embeds `AudioConverter.convert_to_ipod_format` (`src/audio_converter.py`
lines 42-111) against the set `outFiles` of already-existing output
files.  If the destination exists and `overwrite` is false the method
returns it immediately (lines 86-88) without touching ffmpeg;
otherwise it runs the transcoder, which either produces the file and
returns the path or raises (`ffmpegOk`).  A failed ffmpeg run is
modelled as leaving no (complete) output file. -/
def convert_to_ipod_format (outFiles : List (List String)) (outputDir : String)
    (t : TrackInfo) (fmt : String) (overwrite ffmpegOk : Bool) : ConvertResult :=
  let out := convertOutputPath outputDir t fmt
  if out ∈ outFiles ∧ ¬overwrite then
    { result := some out, outFiles := outFiles, transcoderInvoked := false }
  else if ffmpegOk then
    { result := some out, outFiles := out :: outFiles, transcoderInvoked := true }
  else
    { result := none, outFiles := outFiles, transcoderInvoked := true }

/-! ## Helper lemmas -/

lemma isPySpace_replaceInvalid (c : Char) :
    isPySpace (replaceInvalid c) = isPySpace c := by
  unfold replaceInvalid
  by_cases hc : c ∈ invalidChars
  · simp only [hc, if_pos]
    fin_cases hc <;> decide
  · simp [hc]

lemma length_dropWhile_le (p : Char → Bool) (l : List Char) :
    (l.dropWhile p).length ≤ l.length := by
  induction l with
  | nil => simp
  | cons a l ih =>
    rw [List.dropWhile_cons]
    split
    · exact le_trans ih (by simp)
    · simp

lemma pyStrip_length_le (l : List Char) : (pyStrip l).length ≤ l.length := by
  unfold pyStrip
  calc ((l.dropWhile isPySpace).reverse.dropWhile isPySpace).reverse.length
      = ((l.dropWhile isPySpace).reverse.dropWhile isPySpace).length :=
        List.length_reverse _
    _ ≤ (l.dropWhile isPySpace).reverse.length := length_dropWhile_le _ _
    _ = (l.dropWhile isPySpace).length := List.length_reverse _
    _ ≤ l.length := length_dropWhile_le _ _

lemma pyStrip_no_trim (c : Char) (m : List Char) (hc : isPySpace c = false) :
    pyStrip (c :: (m ++ ellipsis)) = c :: (m ++ ellipsis) := by
  unfold pyStrip
  rw [List.dropWhile_cons_of_neg (by simp [hc]), List.reverse_cons, List.reverse_append]
  rw [show ellipsis.reverse = '.' :: ('.' :: ('.' :: [])) from rfl]
  simp only [List.cons_append, List.nil_append]
  rw [List.dropWhile_cons_of_neg (by decide)]
  simp [ellipsis]

lemma splitFirst_eq_none_of_not_mem (c : Char) (s : List Char) (h : c ∉ s) :
    splitFirst c s = none := by
  induction s with
  | nil => rfl
  | cons x xs ih =>
    have hx : ¬x = c := fun hxc => h (hxc ▸ List.mem_cons_self x xs)
    have hxs : c ∉ xs := fun hm => h (List.mem_cons_of_mem x hm)
    simp [splitFirst, hx, ih hxs]

/-! ## Claims -/

/-- C3 (counterexample): the claim says a post-replacement length above
100 always yields a result of length exactly 100, but the final
`strip()` removes the leading space of this 101-character input, giving
length 99. -/
theorem C3_sanitize_length_counterexample :
    100 < (' ' :: List.replicate 100 'a').length ∧
    (sanitize_filename (' ' :: List.replicate 100 'a')).length ≠ 100 := by
  constructor
  · simp
  · decide

/-- C3 (amended): `_sanitize_filename` replaces each of `<>:"/\|?*`
with `_`; when the post-replacement length exceeds 100 it keeps the
first 97 characters plus the 3-character ellipsis and finally strips
leading/trailing whitespace, so the result has length at most 100, and
exactly 100 whenever the input does not start with whitespace.  (The
truncated result always ends in `...`, so only leading whitespace can
shorten it.) -/
theorem C3_sanitize_filename_amended (s : List Char) (h : 100 < s.length)
    (hhead : isPySpace (s.headD '.') = false) :
    sanitize_filename s = (s.map replaceInvalid).take 97 ++ ellipsis ∧
    (sanitize_filename s).length = 100 ∧
    (∀ u : List Char, (sanitize_filename u).length ≤ 100) := by
  obtain ⟨c, cs, rfl⟩ : ∃ c cs, s = c :: cs := by
    cases s with
    | nil => simp at h
    | cons c cs => exact ⟨c, cs, rfl⟩
  have hlen : 100 < ((c :: cs).map replaceInvalid).length := by
    simpa using h
  have hc : isPySpace (replaceInvalid c) = false := by
    rw [isPySpace_replaceInvalid]
    simpa using hhead
  have htake :
      ((c :: cs).map replaceInvalid).take 97
        = replaceInvalid c :: (cs.map replaceInvalid).take 96 := by
    simp [List.map_cons]
  have hmain :
      sanitize_filename (c :: cs)
        = ((c :: cs).map replaceInvalid).take 97 ++ ellipsis := by
    unfold sanitize_filename
    simp only [hlen, if_pos]
    rw [htake, List.cons_append]
    exact pyStrip_no_trim _ _ hc
  have hcslen : 96 ≤ (cs.map replaceInvalid).length := by
    simp only [List.length_map]
    simp only [List.length_cons] at h
    omega
  refine ⟨hmain, ?_, ?_⟩
  · rw [hmain, htake]
    simp only [List.cons_append, List.length_cons, List.length_append,
      List.length_take, ellipsis, List.length_nil]
    omega
  · intro u
    unfold sanitize_filename
    by_cases hu : 100 < (u.map replaceInvalid).length
    · simp only [hu, if_pos]
      refine le_trans (pyStrip_length_le _) ?_
      simp only [List.length_append, List.length_take, ellipsis,
        List.length_cons, List.length_nil]
      omega
    · simp only [hu, if_neg, not_false_iff]
      refine le_trans (pyStrip_length_le _) ?_
      omega

/-- C3 (amended, witness): a 101-character input starting with a
non-whitespace character yields exactly the first 97 replaced
characters plus `...`, of total length 100. -/
theorem C3_sanitize_filename_amended_witness :
    (sanitize_filename (List.replicate 101 'a')).length = 100 :=
  (C3_sanitize_filename_amended (List.replicate 101 'a')
    (by decide) (by decide)).2.1

/-- C6: `_parse_artist_title` tries the hyphen, colon and pipe
conventions in that order (the mixed input splits at the hyphen even
though a colon occurs earlier, because the hyphen pattern is tried
first), produces the four documented example splits, and returns an
empty artist with the stripped whole title when no separator occurs. -/
theorem C6_parse_artist_title (s : List Char)
    (h1 : '-' ∉ s) (h2 : ':' ∉ s) (h3 : '|' ∉ s) :
    parse_artist_title (("Artist - Title").data) = ((("Artist").data), (("Title").data)) ∧
    parse_artist_title (("Artist: Title").data) = ((("Artist").data), (("Title").data)) ∧
    parse_artist_title (("Artist | Title").data) = ((("Artist").data), (("Title").data)) ∧
    parse_artist_title (("Plain Title").data) = (([]), (("Plain Title").data)) ∧
    parse_artist_title (("A: B - C").data) = ((("A: B").data), (("C").data)) ∧
    parse_artist_title s = ([], pyStrip s) := by
  refine ⟨by decide, by decide, by decide, by decide, by decide, ?_⟩
  unfold parse_artist_title
  rw [splitFirst_eq_none_of_not_mem _ _ h1, splitFirst_eq_none_of_not_mem _ _ h2,
    splitFirst_eq_none_of_not_mem _ _ h3]

/-- C6 (witness): instantiated at a separator-free title. -/
theorem C6_parse_artist_title_witness :
    parse_artist_title (("Plain Title").data) = ([], pyStrip (("Plain Title").data)) :=
  (C6_parse_artist_title (("Plain Title").data)
    (by decide) (by decide) (by decide)).2.2.2.2.2

/-- Number of surviving (non-skipped) playlist entries. -/
def countSome : List (Option TrackInfo) → Nat
  | [] => 0
  | none :: r => countSome r
  | some _ :: r => countSome r + 1

lemma resolveEntries_track_numbers (pid ptitle : String) (entries : List (Option TrackInfo)) :
    ∀ idx tn, (resolveEntries pid ptitle idx tn entries).map (fun t => t.track_number)
      = (List.range' tn (countSome entries)).map some := by
  induction entries with
  | nil => intro idx tn; rfl
  | cons e rest ih =>
    intro idx tn
    cases e with
    | none => simpa [resolveEntries, countSome] using ih (idx + 1) tn
    | some t =>
      simp [resolveEntries, countSome, List.range'_succ, ih (idx + 1) (tn + 1)]

lemma resolveEntries_length (pid ptitle : String) (entries : List (Option TrackInfo)) :
    ∀ idx tn, (resolveEntries pid ptitle idx tn entries).length = countSome entries := by
  induction entries with
  | nil => intro idx tn; rfl
  | cons e rest ih =>
    intro idx tn
    cases e with
    | none => simpa [resolveEntries, countSome] using ih (idx + 1) tn
    | some t => simp [resolveEntries, countSome, ih (idx + 1) (tn + 1)]

/-- C5: over any playlist, the track numbers assigned to the surviving
entries are exactly `1, 2, …, k` where `k` is the number of surviving
entries — contiguous from 1 no matter how many entries were skipped —
and skipped entries contribute no output item (so they receive no
ordinal). -/
theorem C5_playlist_ordinals (pid ptitle : String) (entries : List (Option TrackInfo)) :
    (extract_playlist_info pid ptitle entries).map (fun t => t.track_number)
      = (List.range' 1 (countSome entries)).map some ∧
    (extract_playlist_info pid ptitle entries).length = countSome entries :=
  ⟨resolveEntries_track_numbers pid ptitle entries 1 1,
   resolveEntries_length pid ptitle entries 1 1⟩

/-- A concrete track used to instantiate witnesses. -/
def sampleTrack : TrackInfo :=
  { video_id := ("v1"), title := ("Song"), artist := ("Artist"),
    album := ("Artist"), thumbnail_url := (""), duration := 100 }

/-- C7: a second `convert_to_ipod_format` call with `overwrite=false`
on the same descriptor, format and output directory returns the same
output path as a successful first call, leaves the output set
unchanged, and does not invoke the transcoder. -/
theorem C7_convert_idempotent (outFiles : List (List String)) (outputDir : String)
    (t : TrackInfo) (fmt : String) (ffmpegOk1 ffmpegOk2 : Bool)
    (p : List String) (outFiles1 : List (List String)) (inv1 : Bool)
    (h : convert_to_ipod_format outFiles outputDir t fmt false ffmpegOk1
          = { result := some p, outFiles := outFiles1, transcoderInvoked := inv1 }) :
    convert_to_ipod_format outFiles1 outputDir t fmt false ffmpegOk2
      = { result := some p, outFiles := outFiles1, transcoderInvoked := false } := by
  unfold convert_to_ipod_format at h ⊢
  by_cases hmem : convertOutputPath outputDir t fmt ∈ outFiles
  · simp only [hmem, true_and, not_false_iff, if_pos] at h
    obtain ⟨hp, hf⟩ : some (convertOutputPath outputDir t fmt) = some p ∧ outFiles = outFiles1 := by
      refine ⟨congrArg ConvertResult.result h, congrArg ConvertResult.outFiles h⟩
    obtain rfl : convertOutputPath outputDir t fmt = p := Option.some.inj hp
    subst hf
    simp [hmem]
  · simp only [hmem, false_and, if_neg, not_false_iff] at h
    cases ffmpegOk1 with
    | false =>
      simp only [Bool.false_eq_true, if_neg, not_false_iff] at h
      exact absurd (congrArg ConvertResult.result h) (by simp)
    | true =>
      simp only [if_pos] at h
      have hp : some (convertOutputPath outputDir t fmt) = some p :=
        congrArg ConvertResult.result h
      have hf : convertOutputPath outputDir t fmt :: outFiles = outFiles1 :=
        congrArg ConvertResult.outFiles h
      obtain rfl : convertOutputPath outputDir t fmt = p := Option.some.inj hp
      subst hf
      simp

/-- C7 (witness): after a first conversion of `sampleTrack` from an
empty output set, the repeat call returns the cached path without
invoking the transcoder. -/
theorem C7_convert_idempotent_witness :
    convert_to_ipod_format [[("converted"), ("Artist"), ("Artist"), ("Song.m4a")]]
        (("converted")) sampleTrack (("m4a")) false true
      = { result := some [("converted"), ("Artist"), ("Artist"), ("Song.m4a")],
          outFiles := [[("converted"), ("Artist"), ("Artist"), ("Song.m4a")]],
          transcoderInvoked := false } :=
  C7_convert_idempotent [] (("converted")) sampleTrack (("m4a")) true true
    [("converted"), ("Artist"), ("Artist"), ("Song.m4a")]
    [[("converted"), ("Artist"), ("Artist"), ("Song.m4a")]] true (by decide)

lemma downloadFinish_spec (ep : List String) (t : TrackInfo) (fs' : FS) :
    ((downloadFinish ep t fs').result = none → (downloadFinish ep t fs').track = t) ∧
    (∀ p, (downloadFinish ep t fs').result = some p →
      (downloadFinish ep t fs').track.download_path = some p ∧
      (downloadFinish ep t fs').fs.existsPath p = true) := by
  unfold downloadFinish
  by_cases hex : fs'.existsPath ep = true
  · rw [if_pos hex]
    refine ⟨fun hn => ?_, fun p hp => ?_⟩
    · simp at hn
    · have hep : some ep = some p := hp
      obtain rfl : ep = p := Option.some.inj hep
      exact ⟨rfl, hex⟩
  · rw [if_neg hex]
    refine ⟨fun _ => rfl, fun p hp => ?_⟩
    simp at hp

/-- C9: a descriptor fresh out of `extract_video_info` has an empty
`download_path`; `download_audio` leaves the descriptor untouched when
it returns `None`, and when it returns a path it both stores that path
in `download_path` and has verified the file exists on disk at that
moment — so the field moves exactly once, from empty to an existing
path. -/
theorem C9_download_path_invariant (tempDir : String) (t : TrackInfo) (fmt : String)
    (fs : FS) (produced : Bool) (created : FileData)
    (hfresh : t.download_path = none) :
    ((download_track tempDir t fmt fs produced created).result = none →
      (download_track tempDir t fmt fs produced created).track = t ∧
      (download_track tempDir t fmt fs produced created).track.download_path = none) ∧
    (∀ p, (download_track tempDir t fmt fs produced created).result = some p →
      (download_track tempDir t fmt fs produced created).track.download_path = some p ∧
      (download_track tempDir t fmt fs produced created).fs.existsPath p = true) ∧
    (∀ vid vt th du, (extract_video_info vid vt th du).download_path = none) := by
  have h := downloadFinish_spec (downloadExpectedPath tempDir t fmt) t
    (if produced then fs.store (downloadExpectedPath tempDir t fmt) created else fs)
  rw [show download_track tempDir t fmt fs produced created
        = downloadFinish (downloadExpectedPath tempDir t fmt) t
            (if produced then fs.store (downloadExpectedPath tempDir t fmt) created else fs)
      from rfl]
  refine ⟨fun hn => ?_, fun p hp => h.2 p hp, fun vid vt th du => rfl⟩
  have ht := h.1 hn
  exact ⟨ht, by rw [ht, hfresh]⟩

/-- C9 (witness): a successful fetch of `sampleTrack` sets
`download_path` to the doubled-extension temp path, which exists
afterwards. -/
theorem C9_download_path_invariant_witness :
    (download_track (("temp")) sampleTrack (("m4a")) [] true ⟨5, 0⟩).track.download_path
        = some [("temp"), ("Song.m4a.m4a")] ∧
    (download_track (("temp")) sampleTrack (("m4a")) [] true ⟨5, 0⟩).fs.existsPath
        [("temp"), ("Song.m4a.m4a")] = true :=
  (C9_download_path_invariant (("temp")) sampleTrack (("m4a")) [] true ⟨5, 0⟩
    (by decide)).2.1 [("temp"), ("Song.m4a.m4a")] (by decide)

/-- C1: with a mounted, existing mount point reporting free space `F`,
the transfer step compares the summed sizes `S` of the batch's existing
source files against `F`: when `S > F` it fails with the
insufficient-space reason before any file is copied (nothing attempted,
nothing transferred); when `S ≤ F` it attempts exactly the pairs whose
source path exists, in order. -/
theorem C1_transfer_capacity_check (tracks : List (TrackInfo × List String))
    (mp : List String) (dirs : List (List String)) (usage : Nat × Nat × Nat)
    (fs : FS) (place : List String → Bool)
    (hne : tracks ≠ []) (hmp : mp ∈ dirs) :
    (usage.2.1 < totalSize fs tracks →
      (run_transfer tracks (some mp) dirs usage false fs place).outcome
          = TransferOutcome.insufficientSpace ∧
      (run_transfer tracks (some mp) dirs usage false fs place).attempted = [] ∧
      (run_transfer tracks (some mp) dirs usage false fs place).transferred = []) ∧
    (totalSize fs tracks ≤ usage.2.1 →
      (run_transfer tracks (some mp) dirs usage false fs place).outcome
          = TransferOutcome.completed ∧
      (run_transfer tracks (some mp) dirs usage false fs place).attempted
          = (tracks.filter (fun tp => fs.existsPath tp.2)).map (fun tp => tp.2)) := by
  have hempty : tracks.isEmpty = false := by
    cases tracks with
    | nil => exact absurd rfl hne
    | cons a l => rfl
  have hfree : reportedFreeSpace (get_device_info (some mp) dirs usage false) = usage.2.1 := by
    simp only [get_device_info, reportedFreeSpace]
    rw [if_pos hmp]
    rfl
  have hrun : run_transfer tracks (some mp) dirs usage false fs place
      = if usage.2.1 < totalSize fs tracks then
          { outcome := TransferOutcome.insufficientSpace, attempted := [], transferred := [] }
        else
          { outcome := TransferOutcome.completed,
            attempted := (tracks.filter (fun tp => fs.existsPath tp.2)).map (fun tp => tp.2),
            transferred := (tracks.filter (fun tp => fs.existsPath tp.2)).filter
              (fun tp => place tp.2) } := by
    unfold run_transfer
    simp only [hempty, Bool.false_eq_true, if_false, hfree]
  constructor
  · intro hlt
    rw [hrun, if_pos hlt]
    exact ⟨rfl, rfl, rfl⟩
  · intro hle
    rw [hrun, if_neg (not_lt.mpr hle)]
    exact ⟨rfl, rfl⟩

/-- C1 (witness): a one-item batch of 5 bytes against 3 free bytes is
rejected with the insufficient-space reason and nothing attempted. -/
theorem C1_transfer_capacity_check_witness :
    (run_transfer [(sampleTrack, [("temp"), ("a.m4a")])] (some [("mnt")]) [[("mnt")]]
        (10, 3, 7) false [([("temp"), ("a.m4a")], ⟨5, 0⟩)] (fun _ => true)).outcome
      = TransferOutcome.insufficientSpace :=
  ((C1_transfer_capacity_check [(sampleTrack, [("temp"), ("a.m4a")])] [("mnt")]
      [[("mnt")]] (10, 3, 7) [([("temp"), ("a.m4a")], ⟨5, 0⟩)] (fun _ => true)
      (by decide) (by decide)).1 (by decide)).1

/-- C10 (counterexample): with no recorded mount point at all, the
transfer step rejects a non-empty batch of positive total size with the
"No iPod device mounted" (device-unavailable) reason before any
capacity query — not with the insufficient-space reason the claim
requires. -/
theorem C10_no_mount_counterexample :
    0 < totalSize [([("temp"), ("a.m4a")], ⟨5, 0⟩)] [(sampleTrack, [("temp"), ("a.m4a")])] ∧
    (run_transfer [(sampleTrack, [("temp"), ("a.m4a")])] none [] (0, 0, 0) false
        [([("temp"), ("a.m4a")], ⟨5, 0⟩)] (fun _ => true)).outcome
      = TransferOutcome.noMount ∧
    (run_transfer [(sampleTrack, [("temp"), ("a.m4a")])] none [] (0, 0, 0) false
        [([("temp"), ("a.m4a")], ⟨5, 0⟩)] (fun _ => true)).outcome
      ≠ TransferOutcome.insufficientSpace := by
  refine ⟨by decide, rfl, by decide⟩

/-- C10 (amended): when the handle records a mount point that does not
exist on disk, the capacity query returns the empty dictionary, the
transfer step therefore treats free space as 0 bytes, and any non-empty
batch with positive total size fails with the insufficient-space reason
with zero files copied.  (When no mount point is recorded at all the
step instead fails earlier with the device-unavailable "No iPod device
mounted" reason, before the capacity query.) -/
theorem C10_dead_mount_point_amended (tracks : List (TrackInfo × List String))
    (mp : List String) (dirs : List (List String)) (usage : Nat × Nat × Nat)
    (usageFails : Bool) (fs : FS) (place : List String → Bool)
    (hne : tracks ≠ []) (hmp : mp ∉ dirs) (hpos : 0 < totalSize fs tracks) :
    get_device_info (some mp) dirs usage usageFails = none ∧
    reportedFreeSpace (get_device_info (some mp) dirs usage usageFails) = 0 ∧
    (run_transfer tracks (some mp) dirs usage usageFails fs place).outcome
        = TransferOutcome.insufficientSpace ∧
    (run_transfer tracks (some mp) dirs usage usageFails fs place).attempted = [] ∧
    (run_transfer tracks (some mp) dirs usage usageFails fs place).transferred = [] := by
  have hempty : tracks.isEmpty = false := by
    cases tracks with
    | nil => exact absurd rfl hne
    | cons a l => rfl
  have hinfo : get_device_info (some mp) dirs usage usageFails = none := by
    simp only [get_device_info]
    rw [if_neg hmp]
  have hfree : reportedFreeSpace (get_device_info (some mp) dirs usage usageFails) = 0 := by
    rw [hinfo]
    rfl
  have hrun : run_transfer tracks (some mp) dirs usage usageFails fs place
      = { outcome := TransferOutcome.insufficientSpace, attempted := [], transferred := [] } := by
    unfold run_transfer
    simp only [hempty, Bool.false_eq_true, if_false, hfree]
    rw [if_pos hpos]
  exact ⟨hinfo, hfree, by rw [hrun], by rw [hrun], by rw [hrun]⟩

/-- C10 (amended, witness): a 5-byte batch against a recorded but
non-existing mount point is rejected as insufficient space. -/
theorem C10_dead_mount_point_amended_witness :
    (run_transfer [(sampleTrack, [("temp"), ("a.m4a")])] (some [("gone")]) [] (9, 9, 0)
        false [([("temp"), ("a.m4a")], ⟨5, 0⟩)] (fun _ => true)).outcome
      = TransferOutcome.insufficientSpace :=
  (C10_dead_mount_point_amended [(sampleTrack, [("temp"), ("a.m4a")])] [("gone")] []
    (9, 9, 0) false [([("temp"), ("a.m4a")], ⟨5, 0⟩)] (fun _ => true)
    (by decide) (by decide) (by decide)).2.2.1

/-- C2 (counterexample): `transfer_file` copies straight to the final
destination name, so a copy failing after 4 of the source's 10 bytes
returns `False` yet leaves a 4-byte partial file visible under the
final destination name — refuting the claimed atomic failure. -/
theorem C2_transfer_file_atomicity_counterexample :
    (transfer_file (some [("mnt")]) [[("mnt")]]
        [([("music"), ("Artist"), ("Album"), ("song.m4a")], ⟨10, 42⟩)]
        [("music"), ("Artist"), ("Album"), ("song.m4a")] none (CopyEvent.fail 4) 7).2
      = false ∧
    (transfer_file (some [("mnt")]) [[("mnt")]]
        [([("music"), ("Artist"), ("Album"), ("song.m4a")], ⟨10, 42⟩)]
        [("music"), ("Artist"), ("Album"), ("song.m4a")] none (CopyEvent.fail 4) 7).1.lookup
        [("mnt"), ("Music"), ("Artist"), ("Album"), ("song.m4a")]
      = some ⟨4, 7⟩ ∧
    (4 : Nat) ≠ 10 := by
  refine ⟨rfl, rfl, by decide⟩

/-- C2 (amended): `transfer_file` preserves the source's modification
time on success (`shutil.copy2` copies data and stat), but it is not
failure-atomic: the copy writes directly to the final destination name
with no temporary name, rename, or size verification, so a failed copy
leaves the partial prefix visible under the final name and returns
`False`. -/
theorem C2_transfer_file_amended (mp : List String) (dirs : List (List String))
    (fs : FS) (src : List String) (relative : Option (List String))
    (fd : FileData) (now k : Nat)
    (hmp : mp ∈ dirs) (hsrc : fs.lookup src = some fd) :
    transfer_file (some mp) dirs fs src relative CopyEvent.ok now
      = (fs.store (transferDestDir mp src relative ++ [basenameOf src]) fd, true) ∧
    transfer_file (some mp) dirs fs src relative (CopyEvent.fail k) now
      = (fs.store (transferDestDir mp src relative ++ [basenameOf src])
          { size := min k fd.size, mtime := now }, false) := by
  have hex : fs.existsPath src = true := by
    unfold FS.existsPath
    rw [hsrc]
    rfl
  constructor
  · simp only [transfer_file, copy2]
    rw [if_pos hmp, if_pos hex, hsrc]
  · simp only [transfer_file, copy2]
    rw [if_pos hmp, if_pos hex, hsrc]

/-- C2 (amended, witness): a successful copy publishes the source's
size and modification time under the derived destination name. -/
theorem C2_transfer_file_amended_witness :
    transfer_file (some [("mnt")]) [[("mnt")]]
        [([("music"), ("Artist"), ("Album"), ("song.m4a")], ⟨10, 42⟩)]
        [("music"), ("Artist"), ("Album"), ("song.m4a")] none CopyEvent.ok 7
      = ([([("music"), ("Artist"), ("Album"), ("song.m4a")], ⟨10, 42⟩),
          ([("mnt"), ("Music"), ("Artist"), ("Album"), ("song.m4a")], ⟨10, 42⟩)], true) := by
  have h := (C2_transfer_file_amended [("mnt")] [[("mnt")]]
    [([("music"), ("Artist"), ("Album"), ("song.m4a")], ⟨10, 42⟩)]
    [("music"), ("Artist"), ("Album"), ("song.m4a")] none ⟨10, 42⟩ 7 4
    (by decide) (by decide)).1
  rw [h]
  decide

/-- Two distinct concrete device records used to exercise discovery. -/
def vendorIPod : Device :=
  { id := ("00008110-XYZ"), name := ("My iPod"), model := ("iPod7,1"), mount_point := none }

def diskutilIPod : Device :=
  { id := ("/dev/disk4"), name := ("iPod"), model := ("Unknown"),
    mount_point := some [("Volumes"), ("IPOD")] }

/-- C4 (counterexample): on a macOS host where the vendor-protocol
query already yields a device, the disk-enumeration strategy still runs
and its result is appended — discovery does not stop at the first
strategy that yields a match. -/
theorem C4_detect_devices_counterexample :
    detect_devices
        { ideviceAvailable := true, vendorDevices := [vendorIPod],
          diskutilAvailable := true, diskutilDevices := [diskutilIPod],
          volumesDevices := [] } none ("") false
      = [vendorIPod, diskutilIPod] ∧
    ([vendorIPod, diskutilIPod] : List Device) ≠ [vendorIPod] := by
  refine ⟨rfl, by decide⟩

/-- C4 (amended): on macOS the vendor-protocol query and the disk
enumeration both run, and their results are concatenated even when the
first already matched; the `/Volumes` heuristic contributes only when
those two found nothing; a caller-supplied mount point is used only
when every strategy found nothing (and it exists); and a host with
neither tool installed and no manual mount point yields the empty list
rather than an error. -/
theorem C4_detect_devices_amended (h : DarwinHost) (manual : List String)
    (mname : String) (me : Bool)
    (hv : h.ideviceAvailable = true) (hd : h.diskutilAvailable = true)
    (hne : h.vendorDevices ≠ []) :
    detect_devices h (some manual) mname me = h.vendorDevices ++ h.diskutilDevices ∧
    (∀ g : DarwinHost, g.ideviceAvailable = true → g.diskutilAvailable = true →
      g.vendorDevices = [] → g.diskutilDevices = [] →
      detect_devices g none mname me = g.volumesDevices) ∧
    (∀ g : DarwinHost, g.ideviceAvailable = false → g.diskutilAvailable = false →
      detect_devices g none mname me = []) ∧
    (∀ g : DarwinHost, g.ideviceAvailable = false → g.diskutilAvailable = false →
      detect_devices g (some manual) mname false = []) := by
  refine ⟨?_, ?_, ?_, ?_⟩
  · have hcat : h.vendorDevices ++ h.diskutilDevices ≠ [] := by
      cases hx : h.vendorDevices with
      | nil => exact absurd hx hne
      | cons a l => simp
    have hcatE : (h.vendorDevices ++ h.diskutilDevices).isEmpty = false := by
      cases hx : h.vendorDevices ++ h.diskutilDevices with
      | nil => exact absurd hx hcat
      | cons a l => rfl
    unfold detect_devices
    rw [hv, hd]
    simp [hcatE]
  · intro g hgv hgd hve hde
    unfold detect_devices
    rw [hgv, hgd, hve, hde]
    simp
  · intro g hgv hgd
    unfold detect_devices
    rw [hgv, hgd]
    simp
  · intro g hgv hgd
    unfold detect_devices
    rw [hgv, hgd]
    simp

/-- C4 (amended, witness): instantiated at the two-strategy host. -/
theorem C4_detect_devices_amended_witness :
    detect_devices
        { ideviceAvailable := true, vendorDevices := [vendorIPod],
          diskutilAvailable := true, diskutilDevices := [diskutilIPod],
          volumesDevices := [] } (some [("mnt")]) ("") true
      = [vendorIPod] ++ [diskutilIPod] :=
  (C4_detect_devices_amended
    { ideviceAvailable := true, vendorDevices := [vendorIPod],
      diskutilAvailable := true, diskutilDevices := [diskutilIPod],
      volumesDevices := [] } [("mnt")] ("") true rfl rfl (by decide)).1

/-- C8 (counterexample): a two-track playlist run emits 95 when the
first track's download finishes and then 10 when the second track is
prepared — the emitted sequence is not monotonically non-decreasing,
refuting the monotonicity half of the claim. -/
theorem C8_progress_monotonicity_counterexample :
    processUrlTrace 2 [[DlEvent.finished], [DlEvent.finished]]
      = [0, 5, 10, 10, 95, 10, 95, 100] ∧
    isNondecreasing (processUrlTrace 2 [[DlEvent.finished], [DlEvent.finished]]) = false := by
  refine ⟨rfl, by decide⟩

lemma hookPercent_le_95 (e : DlEvent) (hwf : wfEvent e) : hookPercent e ≤ 95 := by
  cases e with
  | known d t =>
    obtain ⟨hd, ht⟩ := hwf
    have h1 : 85 * d / t ≤ 85 := by
      calc 85 * d / t ≤ 85 * t / t := Nat.div_le_div_right (Nat.mul_le_mul_left 85 hd)
        _ = 85 := Nat.mul_div_cancel 85 ht
    simpa [hookPercent] using by omega
  | unknown d ticks =>
    have h1 : ticks % 80 < 80 := Nat.mod_lt ticks (by norm_num)
    simp only [hookPercent]
    omega
  | finished => simp [hookPercent]
  | error => simp [hookPercent]

lemma analysis_step_le_10 (n i : Nat) (h : i < n) : 10 * (i + 1) / n ≤ 10 := by
  have hn : 0 < n := Nat.lt_of_le_of_lt (Nat.zero_le i) h
  calc 10 * (i + 1) / n ≤ 10 * n / n :=
        Nat.div_le_div_right (Nat.mul_le_mul_left 10 (by omega))
    _ = 10 := Nat.mul_div_cancel 10 hn

/-- C8 (amended): every percentage the acquisition stage emits —
through playlist analysis, per-track preparation, the download hook
(assuming the fetch engine never reports more downloaded bytes than its
positive total), and the final update — is an integer in [0, 100]; the
sequence is however not monotonically non-decreasing in general (it
falls back to 10 at each new track and pulses for unknown sizes). -/
theorem C8_progress_bounds_amended (n : Nat) (perTrack : List (List DlEvent))
    (hwf : ∀ evs ∈ perTrack, ∀ e ∈ evs, wfEvent e) :
    (processUrlTrace n perTrack).all (fun p => p ≤ 100) = true := by
  rw [List.all_eq_true]
  intro p hp
  simp only [decide_eq_true_eq]
  unfold processUrlTrace at hp
  rcases List.mem_append.mp hp with hab | h100
  · rcases List.mem_append.mp hab with ha | hb
    · unfold analysisTrace at ha
      rcases List.mem_cons.mp ha with rfl | hmap
      · omega
      · obtain ⟨i, hi, rfl⟩ := List.mem_map.mp hmap
        have := analysis_step_le_10 n i (List.mem_range.mp hi)
        omega
    · obtain ⟨l, hl, hpl⟩ := List.mem_flatten.mp hb
      obtain ⟨evs, hevs, rfl⟩ := List.mem_map.mp hl
      rcases List.mem_cons.mp hpl with rfl | hpe
      · omega
      · obtain ⟨e, he, rfl⟩ := List.mem_map.mp hpe
        have := hookPercent_le_95 e (hwf evs hevs e he)
        omega
  · have hp100 : p = 100 := by simpa using h100
    omega

/-- C8 (amended, witness): a one-track run with one well-formed
known-size event stays within [0, 100]. -/
theorem C8_progress_bounds_amended_witness :
    (processUrlTrace 1 [[DlEvent.known 5 10]]).all (fun p => p ≤ 100) = true :=
  C8_progress_bounds_amended 1 [[DlEvent.known 5 10]] (by decide)
